import Mathlib

/-!
Verification of the ITSM-helper core (ServiceNow Foundry sample).

This file gives a shallow embedding, in Lean 4, of the core of the Go
package `itsmhelper`: the time-bucket calculator and object-key sanitizer
(`internal/storage/throttling.go`, `internal/storage/storage.go`), the
mapping and dedup store operations, the payload builder and the
incident-creation / throttle handlers
(`internal/service/foundryutils.go` = `internal/handler/handlers.go`),
together with theorems settling the specification claims about them.

Modelling conventions:
* machine-independent data: Go strings become `String`, Go maps become
  association lists looked up with `List.lookup` (first binding wins, so
  prepending a binding models overwriting a map entry / a PutObject);
* the key-value backend is modelled as an association list in which a GET
  either finds the object or reports the 404 "not found" signal (transport
  faults other than 404 are outside the model; no claim concerns them);
* a stored object body is either a value that JSON-decodes to the relevant
  record or an undecodable blob, which models `json.Unmarshal` succeeding
  or failing on the fetched bytes;
* Go standard-library primitives that are external to the repository are
  passed in as explicit function parameters: the `crypto/md5` hex digest
  (`md5hex : String → String`, a deterministic keying function) and the
  `encoding/json` object decoder used on `custom_fields`
  (`decoder : String → Option (List (String × Json))`);
* `encoding/json` marshalling of already-decoded values (which cannot fail
  in Go) is modelled by the executable encoder `encodeJson` below, which
  prints object keys in ascending order exactly as Go does for maps;
* the injectable time source `timeNow` becomes an explicit `UTCTime`
  argument to every time-dependent operation;
* fallible Go functions returning `(T, error)` become `Except String T`
  when the pair is never partially meaningful, and explicit tuples with an
  `Option String` error slot when the Go code can return a value and an
  error together (as `CheckExternalEntityExists` does).
-/

/-- A UTC wall-clock instant as read from Go's `time.Now().UTC()`.  Only the
fields actually consulted by the core are modelled; `second` and `millis`
are carried to show the bucket label ignores them. -/
structure UTCTime where
  year : Nat
  month : Nat
  day : Nat
  hour : Nat
  minute : Nat
  second : Nat
  millis : Nat
deriving DecidableEq, Repr

/-- Go `fmt.Sprintf "%02d"`: decimal, zero-padded to width 2. -/
def pad2 (n : Nat) : String :=
  if n < 10 then "0" ++ toString n else toString n

/-- Go's year field in the layout `2006`: decimal, zero-padded to width 4. -/
def pad4 (n : Nat) : String :=
  if n < 10 then "000" ++ toString n
  else if n < 100 then "00" ++ toString n
  else if n < 1000 then "0" ++ toString n
  else toString n

/-- Go `now.Format("2006-01-02")`. -/
def formatDate (now : UTCTime) : String :=
  pad4 now.year ++ "-" ++ pad2 now.month ++ "-" ++ pad2 now.day

/-- `storage.TimeBucketForever` (models.go). -/
def TimeBucketForever : String := "forever"

/-- `storage.TimeBucketFiveMin` (models.go). -/
def TimeBucketFiveMin : String := "5 minutes"

/-- `storage.TimeBucketThirtyMin` (models.go). -/
def TimeBucketThirtyMin : String := "30 minutes"

/-- `storage.calculateTimeBucket` (throttling.go).  The current time is an
explicit argument, standing for the injectable `timeNow` indirection. -/
def calculateTimeBucket (tb : String) (now : UTCTime) : Except String String :=
  if tb = TimeBucketForever ∨ tb = TimeBucketFiveMin ∨ tb = TimeBucketThirtyMin then
    if tb = TimeBucketForever then
      Except.ok "forever_bucket"
    else
      let datePart := formatDate now
      let hour := now.hour
      let minutePart :=
        if tb = TimeBucketFiveMin then
          pad2 hour ++ ":" ++ pad2 (now.minute / 5 * 5)
        else
          pad2 hour ++ ":" ++ pad2 (now.minute / 30 * 30)
      Except.ok (datePart ++ "_" ++ minutePart)
  else
    Except.error ("invalid time bucket: " ++ tb)

/-- Membership in the character class `[a-zA-Z0-9._-]` of the sanitizer's
regular expression (`Char.isAlpha` is exactly `[a-zA-Z]` and `Char.isDigit`
exactly `[0-9]`). -/
def isAllowedKeyChar (c : Char) : Bool :=
  c.isAlpha || c.isDigit || c == '.' || c == '_' || c == '-'

/-- The replacement pass of `storage.sanitizeObjectKey`:
`regexp.MustCompile("[^a-zA-Z0-9._-]").ReplaceAllString(input, "_")`.
Go's regexp replaces each disallowed rune with one `_`; since every output
rune is ASCII, the Go byte length of the result equals its rune count,
which is `String.length` here. -/
def sanitizedForm (input : String) : String :=
  String.mk (input.data.map fun c => if isAllowedKeyChar c then c else '_')

/-- `storage.sanitizeObjectKey` (storage.go). -/
def sanitizeObjectKey (input : String) : Except String String :=
  let sanitized := sanitizedForm input
  if sanitized.length > 1000 then
    Except.error ("object key exceeds maximum length of 1000 characters: "
      ++ toString sanitized.length)
  else
    Except.ok sanitized

/-- `storage.CreateTrackedEntityKey` (storage.go):
`fmt.Sprintf("%s.%s", externalSystemID, internalEntityID)` then sanitize. -/
def CreateTrackedEntityKey (externalSystemID internalEntityID : String) :
    Except String String :=
  sanitizeObjectKey (externalSystemID ++ "." ++ internalEntityID)

theorem strAppend_assoc (a b c : String) : a ++ b ++ c = a ++ (b ++ c) := by
  cases a with
  | mk da =>
    cases b with
    | mk db =>
      cases c with
      | mk dc =>
        show String.mk (da ++ db ++ dc) = String.mk (da ++ (db ++ dc))
        rw [List.append_assoc]

/-- C3: the time-bucket calculation.  For a real clock reading (minute < 60,
hour < 24): `forever` maps to the literal `forever_bucket`; the 5-minute and
30-minute labels are `YYYY-MM-DD_HH:MM` with the minute floored to a multiple
of 5 (resp. 30) and zero-padded to two digits; flooring is inclusive on the
lower boundary (the two concrete conjuncts check 10:19:59.999 → `_10:15` and
10:20:00.000 → `_10:20`); any input outside the three enum values yields the
error `invalid time bucket: <input>`. -/
theorem time_bucket_calculation (now : UTCTime) (s : String)
    (hmin : now.minute < 60) (hhour : now.hour < 24)
    (hs1 : s ≠ "forever") (hs2 : s ≠ "5 minutes") (hs3 : s ≠ "30 minutes") :
    calculateTimeBucket "forever" now = Except.ok "forever_bucket"
  ∧ calculateTimeBucket "5 minutes" now =
      Except.ok (formatDate now ++ "_" ++ (pad2 now.hour ++ ":" ++ pad2 (now.minute / 5 * 5)))
  ∧ calculateTimeBucket "30 minutes" now =
      Except.ok (formatDate now ++ "_" ++ (pad2 now.hour ++ ":" ++ pad2 (now.minute / 30 * 30)))
  ∧ (now.minute / 5 * 5) % 5 = 0
  ∧ (now.minute / 30 * 30) % 30 = 0
  ∧ now.minute / 5 * 5 ≤ now.minute
  ∧ now.minute / 30 * 30 ≤ now.minute
  ∧ (pad2 (now.minute / 5 * 5)).length = 2
  ∧ (pad2 (now.minute / 30 * 30)).length = 2
  ∧ (pad2 now.hour).length = 2
  ∧ calculateTimeBucket s now = Except.error ("invalid time bucket: " ++ s)
  ∧ calculateTimeBucket "5 minutes" ⟨2023, 5, 15, 10, 19, 59, 999⟩ =
      Except.ok "2023-05-15_10:15"
  ∧ calculateTimeBucket "5 minutes" ⟨2023, 5, 15, 10, 20, 0, 0⟩ =
      Except.ok "2023-05-15_10:20" := by
  have pad5 : ∀ m, m < 60 → (pad2 (m / 5 * 5)).length = 2 := by decide
  have pad30 : ∀ m, m < 60 → (pad2 (m / 30 * 30)).length = 2 := by decide
  have padh : ∀ h, h < 24 → (pad2 h).length = 2 := by decide
  refine ⟨by simp [calculateTimeBucket, TimeBucketForever],
    by simp [calculateTimeBucket, TimeBucketForever, TimeBucketFiveMin, TimeBucketThirtyMin],
    by simp [calculateTimeBucket, TimeBucketForever, TimeBucketFiveMin, TimeBucketThirtyMin],
    Nat.mul_mod_left _ 5, Nat.mul_mod_left _ 30,
    Nat.div_mul_le_self _ 5, Nat.div_mul_le_self _ 30,
    pad5 _ hmin, pad30 _ hmin, padh _ hhour, ?_, rfl, rfl⟩
  simp [calculateTimeBucket, TimeBucketForever, TimeBucketFiveMin, TimeBucketThirtyMin,
    hs1, hs2, hs3]

theorem time_bucket_calculation_witness :
    calculateTimeBucket "forever" ⟨2023, 5, 15, 10, 19, 59, 999⟩ =
      Except.ok "forever_bucket"
  ∧ calculateTimeBucket "hourly" ⟨2023, 5, 15, 10, 19, 59, 999⟩ =
      Except.error ("invalid time bucket: " ++ "hourly")
  ∧ calculateTimeBucket "5 minutes" ⟨2023, 5, 15, 10, 19, 59, 999⟩ =
      Except.ok "2023-05-15_10:15"
  ∧ calculateTimeBucket "5 minutes" ⟨2023, 5, 15, 10, 20, 0, 0⟩ =
      Except.ok "2023-05-15_10:20" := by
  have h := time_bucket_calculation ⟨2023, 5, 15, 10, 19, 59, 999⟩ "hourly"
    (by decide) (by decide) (by decide) (by decide) (by decide)
  exact ⟨h.1, h.2.2.2.2.2.2.2.2.2.2.1, h.2.2.2.2.2.2.2.2.2.2.2.1, h.2.2.2.2.2.2.2.2.2.2.2.2⟩

/-- C4: the object-key sanitizer.  On success the output contains only
characters from `[A-Za-z0-9._-]` and is at most 1000 long; an input whose
sanitized form exceeds 1000 characters is rejected with an error containing
"exceeds maximum length". -/
theorem sanitize_object_key_postcondition (input out : String) :
    (sanitizeObjectKey input = Except.ok out →
        (∀ c ∈ out.data, isAllowedKeyChar c = true) ∧ out.length ≤ 1000)
  ∧ ((sanitizedForm input).length > 1000 →
        ∃ pre suf, sanitizeObjectKey input = Except.error (pre ++ "exceeds maximum length" ++ suf)) := by
  constructor
  · intro hok
    by_cases hlen : (sanitizedForm input).length > 1000
    · simp [sanitizeObjectKey, hlen] at hok
    · have hout : out = sanitizedForm input := by
        simp [sanitizeObjectKey, hlen] at hok
        exact hok.symm
      subst hout
      refine ⟨?_, by omega⟩
      intro c hc
      have hc' : c ∈ input.data.map fun c => if isAllowedKeyChar c then c else '_' := hc
      obtain ⟨a, _, rfl⟩ := List.mem_map.mp hc'
      split
      · assumption
      · decide
  · intro hlen
    refine ⟨"object key ", " of 1000 characters: " ++ toString (sanitizedForm input).length, ?_⟩
    have h1 : ("object key " ++ "exceeds maximum length" : String)
        = "object key exceeds maximum length" := by decide
    have h2 : ("object key exceeds maximum length" ++ " of 1000 characters: " : String)
        = "object key exceeds maximum length of 1000 characters: " := by decide
    rw [h1, ← strAppend_assoc, h2]
    simp [sanitizeObjectKey, hlen]

theorem sanitize_object_key_postcondition_witness :
    (∀ c ∈ (sanitizedForm "invalid/key:with@special#chars").data, isAllowedKeyChar c = true)
  ∧ (sanitizedForm "invalid/key:with@special#chars").length ≤ 1000
  ∧ sanitizeObjectKey "invalid/key:with@special#chars" =
      Except.ok "invalid_key_with_special_chars" := by
  have h := (sanitize_object_key_postcondition "invalid/key:with@special#chars"
    "invalid_key_with_special_chars").1 rfl
  exact ⟨h.1, h.2, rfl⟩

/-- C5 counterexample: on empty inputs the tracked-entity key operation does
not yield the empty string — the combined string is the bare separator `"."`,
which survives sanitization unchanged. -/
theorem tracked_entity_key_empty_counterexample :
    CreateTrackedEntityKey "" "" = Except.ok "."
  ∧ CreateTrackedEntityKey "" "" ≠ Except.ok "" := by
  refine ⟨rfl, ?_⟩
  intro h
  rw [show CreateTrackedEntityKey "" "" = Except.ok "." from rfl] at h
  exact absurd (Except.ok.inj h) (by decide)

/-- C5 (amended): `CreateTrackedEntityKey` concatenates the two inputs around
a `"."` separator and sanitizes the result; on empty inputs it succeeds and
yields the one-character string `"."` (the bare separator), not the empty
string. -/
theorem tracked_entity_key_spec (externalSystemID internalEntityID : String) :
    CreateTrackedEntityKey externalSystemID internalEntityID =
      sanitizeObjectKey (externalSystemID ++ "." ++ internalEntityID)
  ∧ CreateTrackedEntityKey "" "" = Except.ok "." :=
  ⟨rfl, rfl⟩

/-- A JSON value as produced by Go's `encoding/json` decoding into
`interface{}`: objects become key/value association lists, arrays become
lists.  Numbers are modelled as integers (no claim involves non-integral
numeric data). -/
inductive Json where
  | null
  | bool (b : Bool)
  | num (n : Int)
  | str (s : String)
  | arr (elems : List Json)
  | obj (fields : List (String × Json))
deriving Repr

/-- Lower-case hexadecimal digit, for `\u00XX` escapes. -/
def hexDigitChar (n : Nat) : Char :=
  "0123456789abcdef".data.getD n '0'

/-- Escaping of one character inside a Go `encoding/json` string literal
(HTML escaping of the characters left angle, right angle and ampersand is on
by default in `json.Marshal`, as are the ` `/` ` escapes). -/
def escapeJsonChar (c : Char) : String :=
  if c = '"' then "\\\""
  else if c = '\\' then "\\\\"
  else if c = '\n' then "\\n"
  else if c = '\r' then "\\r"
  else if c = '\t' then "\\t"
  else if c = '<' then "\\u003c"
  else if c = '>' then "\\u003e"
  else if c = '&' then "\\u0026"
  else if c.toNat < 0x20 then
    "\\u00" ++ String.mk [hexDigitChar (c.toNat / 16), hexDigitChar (c.toNat % 16)]
  else if c.toNat = 0x2028 then "\\u2028"
  else if c.toNat = 0x2029 then "\\u2029"
  else String.singleton c

/-- A JSON string literal as written by `json.Marshal`. -/
def encodeString (s : String) : String :=
  "\"" ++ String.join (s.data.map escapeJsonChar) ++ "\""

/-- Lexicographic order on character lists by code point; on UTF-8 encoded
strings this is exactly Go's byte-wise string order. -/
def charListLe : List Char → List Char → Bool
  | [], _ => true
  | _ :: _, [] => false
  | c :: cs, d :: ds =>
    if c.toNat < d.toNat then true
    else if d.toNat < c.toNat then false
    else charListLe cs ds

/-- String order used when emitting map entries, as Go's `sort.Strings`. -/
def strLe (s t : String) : Bool :=
  charListLe s.data t.data

/-- Insertion into a `strLe`-sorted list of strings. -/
def insertSorted (s : String) : List String → List String
  | [] => [s]
  | t :: ts => if strLe s t then s :: t :: ts else t :: insertSorted s ts

/-- Insertion sort on strings; used to model `json.Marshal` writing the
entries of a Go map in ascending key order. -/
def sortStrings : List String → List String
  | [] => []
  | s :: ss => insertSorted s (sortStrings ss)

mutual

/-- Model of `json.Marshal` applied to a value previously decoded from JSON
(for such values marshalling never fails in Go).  Object entries are emitted
in ascending order, as Go does for map keys: the already-encoded
`"key":value` fragments are sorted, which orders them by their (escaped)
keys. -/
def encodeJson : Json → String
  | Json.null => "null"
  | Json.bool true => "true"
  | Json.bool false => "false"
  | Json.num n => toString n
  | Json.str s => encodeString s
  | Json.arr elems => "[" ++ String.intercalate "," (encodeArr elems) ++ "]"
  | Json.obj fields =>
      "\x7b" ++ String.intercalate "," (sortStrings (encodeFields fields)) ++ "\x7d"

/-- Encoded elements of a JSON array, in order. -/
def encodeArr : List Json → List String
  | [] => []
  | j :: js => encodeJson j :: encodeArr js

/-- Encoded `"key":value` fragments of a JSON object, in field order. -/
def encodeFields : List (String × Json) → List String
  | [] => []
  | (k, v) :: fs => (encodeString k ++ ":" ++ encodeJson v) :: encodeFields fs

end

/-- `storage.ExternalEntityRecord` (models.go). -/
structure ExternalEntityRecord where
  internalEntityID : String
  externalEntityID : String
  externalSystemID : String
deriving DecidableEq, Repr

/-- A stored object body in the `tracked_entities` collection: either bytes
that JSON-decode to an `ExternalEntityRecord`, or an undecodable blob. -/
inductive TrackedBody where
  | record (r : ExternalEntityRecord)
  | undecodable
deriving DecidableEq, Repr

/-- Model of `json.Unmarshal` into an `ExternalEntityRecord`. -/
def decodeTrackedBody : TrackedBody → Option ExternalEntityRecord
  | TrackedBody.record r => some r
  | TrackedBody.undecodable => none

/-- The `tracked_entities` collection: object key to stored body; a GET on an
absent key is the 404 "not found" signal. -/
abbrev TrackedStore := List (String × TrackedBody)

/-- A stored object body in the `dedup_store` collection
(`storage.DedupStoreRecord` has the single field `time_bucket`). -/
inductive DedupBody where
  | record (timeBucket : String)
  | undecodable
deriving DecidableEq, Repr

/-- Model of `json.Unmarshal` into a `DedupStoreRecord`. -/
def decodeDedupBody : DedupBody → Option String
  | DedupBody.record tb => some tb
  | DedupBody.undecodable => none

/-- The `dedup_store` collection. -/
abbrev DedupStore := List (String × DedupBody)

/-- `storage.CheckExternalEntityExists` (storage.go).  The three Go return
slots `(bool, *ExternalEntityRecord, error)` are kept as an explicit triple
because the code can return `true` together with a nil record and an error. -/
def CheckExternalEntityExists (store : TrackedStore)
    (internalEntityID externalSystemID : String) :
    Bool × Option ExternalEntityRecord × Option String :=
  match CreateTrackedEntityKey externalSystemID internalEntityID with
  | Except.error e => (false, none, some ("failed to create tracked entity key: " ++ e))
  | Except.ok key =>
    match store.lookup key with
    | none => (false, none, none)
    | some body =>
      match decodeTrackedBody body with
      | none => (true, none, some "failed to unmarshal external entity record")
      | some extRecord =>
        if externalSystemID ≠ "" ∧ extRecord.externalSystemID ≠ externalSystemID then
          (false, none, none)
        else
          (true, some extRecord, none)

/-- `storage.CreateOrUpdateExternalEntityMapping` (storage.go): encode the
record (which cannot fail), derive the key, overwrite the object
unconditionally.  Prepending the binding models the overwriting PUT. -/
def CreateOrUpdateExternalEntityMapping (store : TrackedStore)
    (record : ExternalEntityRecord) : Except String TrackedStore :=
  match CreateTrackedEntityKey record.externalSystemID record.internalEntityID with
  | Except.error e => Except.error ("error creating tracked entity key: " ++ e)
  | Except.ok key => Except.ok ((key, TrackedBody.record record) :: store)

/-- C2: mapping-lookup scoping.  With a non-empty `externalSystemID`, the
lookup returns `(true, some r, _)` only when `r.externalSystemID` equals the
requested system id, and a record found at the derived key whose
`externalSystemID` differs is reported as `(false, none, none)` — found but
filtered, with no error. -/
theorem mapping_lookup_scoping (store : TrackedStore)
    (internalEntityID externalSystemID : String) (hsys : externalSystemID ≠ "") :
    (∀ r e, CheckExternalEntityExists store internalEntityID externalSystemID =
        (true, some r, e) → r.externalSystemID = externalSystemID)
  ∧ (∀ key r, CreateTrackedEntityKey externalSystemID internalEntityID = Except.ok key →
        store.lookup key = some (TrackedBody.record r) →
        r.externalSystemID ≠ externalSystemID →
        CheckExternalEntityExists store internalEntityID externalSystemID =
          (false, none, none)) := by
  constructor
  · intro r e h
    cases hk : CreateTrackedEntityKey externalSystemID internalEntityID with
    | error msg => simp [CheckExternalEntityExists, hk] at h
    | ok key =>
      simp only [CheckExternalEntityExists, hk] at h
      cases hl : store.lookup key with
      | none => simp [hl] at h
      | some body =>
        simp only [hl] at h
        cases body with
        | undecodable => simp [decodeTrackedBody] at h
        | record rec =>
          simp only [decodeTrackedBody] at h
          by_cases hc : externalSystemID ≠ "" ∧ rec.externalSystemID ≠ externalSystemID
          · rw [if_pos hc] at h; simp at h
          · rw [if_neg hc] at h
            simp only [Prod.mk.injEq, Option.some.injEq] at h
            obtain ⟨-, hrec, -⟩ := h
            push_neg at hc
            rw [← hrec]
            exact hc hsys
  · intro key r hk hl hne
    simp [CheckExternalEntityExists, hk, hl, decodeTrackedBody, hsys, hne]

theorem mapping_lookup_scoping_witness :
    CheckExternalEntityExists
      [("servicenow_incident.entity123",
        TrackedBody.record ⟨"entity123", "ticket123", "servicenow_sir_incident"⟩)]
      "entity123" "servicenow_incident" = (false, none, none) := by
  have h := mapping_lookup_scoping
    [("servicenow_incident.entity123",
      TrackedBody.record ⟨"entity123", "ticket123", "servicenow_sir_incident"⟩)]
    "entity123" "servicenow_incident" (by decide)
  exact h.2 "servicenow_incident.entity123"
    ⟨"entity123", "ticket123", "servicenow_sir_incident"⟩ rfl rfl (by decide)

/-- C9: the decode-failure sentinel.  When the body fetched from
`tracked_entities` fails to decode, the lookup reports an error while the
first slot is `true` and the record slot is empty. -/
theorem mapping_decode_failure_sentinel (store : TrackedStore)
    (internalEntityID externalSystemID key : String)
    (hk : CreateTrackedEntityKey externalSystemID internalEntityID = Except.ok key)
    (hl : store.lookup key = some TrackedBody.undecodable) :
    CheckExternalEntityExists store internalEntityID externalSystemID =
      (true, none, some "failed to unmarshal external entity record") := by
  simp [CheckExternalEntityExists, hk, hl, decodeTrackedBody]

theorem mapping_decode_failure_sentinel_witness :
    CheckExternalEntityExists [("servicenow_incident.entity123", TrackedBody.undecodable)]
      "entity123" "servicenow_incident" =
      (true, none, some "failed to unmarshal external entity record") :=
  mapping_decode_failure_sentinel _ _ _ "servicenow_incident.entity123" rfl rfl

/-- `storage.CheckThrottlingStore` (storage.go).  The `crypto/md5` hex digest
is the explicit parameter `md5hex` (a deterministic keying function from the
Go standard library, outside this repository); the time source is the
explicit `now`.  Returns the Go `(bool, error)` pair plus the store as left
by the call (a miss writes a new dedup record at the derived key). -/
def CheckThrottlingStore (md5hex : String → String) (store : DedupStore)
    (internalEntityID dedupObjType dedupObjId timeBucket : String) (now : UTCTime) :
    Bool × Option String × DedupStore :=
  if timeBucket ≠ TimeBucketForever ∧ timeBucket ≠ TimeBucketFiveMin
      ∧ timeBucket ≠ TimeBucketThirtyMin then
    (false,
     some ("unsupported time bucket value: " ++ timeBucket ++ " (must be one of: "
       ++ TimeBucketForever ++ ", " ++ TimeBucketFiveMin ++ ", " ++ TimeBucketThirtyMin ++ ")"),
     store)
  else
    match calculateTimeBucket timeBucket now with
    | Except.error e => (false, some ("failed to calculate time bucket: " ++ e), store)
    | Except.ok currentBucket =>
      let combined := String.intercalate ":"
        [internalEntityID, dedupObjType, dedupObjId, currentBucket]
      let dedupKey := md5hex combined
      match store.lookup dedupKey with
      | none => (false, none, (dedupKey, DedupBody.record timeBucket) :: store)
      | some body =>
        match decodeDedupBody body with
        | none => (false, some "failed to unmarshal dedup record", store)
        | some _ => (true, none, store)

/-- `fdk.APIError`. -/
structure APIError where
  code : Nat
  message : String
deriving DecidableEq, Repr

/-- The body of an `fdk.Response`: a JSON value on success or a list of
`fdk.APIError` values on failure. -/
inductive RespBody where
  | json (j : Json)
  | errors (es : List APIError)
deriving Repr

/-- `fdk.Response`: an HTTP-style status code plus a body. -/
structure Response where
  code : Nat
  body : RespBody
deriving Repr

/-- `fdk.ErrResp` applied to one `fdk.APIError`. -/
def ErrResp (e : APIError) : Response :=
  { code := e.code, body := RespBody.errors [e] }

/-- `handler.ThrottleFunctionRequest` (handlers.go). -/
structure ThrottleFunctionRequest where
  internalEntityID : String
  dedupObjType : String
  dedupObjID : String
  timeBucket : String
deriving DecidableEq, Repr

/-- `Handler.HandleThrottle` (handlers.go), from the point where the Falcon
client has been built successfully (client construction involves no logic of
this repository beyond error pass-through). -/
def HandleThrottle (md5hex : String → String) (store : DedupStore)
    (r : ThrottleFunctionRequest) (now : UTCTime) : Response × DedupStore :=
  match CheckThrottlingStore md5hex store r.internalEntityID r.dedupObjType
      r.dedupObjID r.timeBucket now with
  | (_, some e, store') => (ErrResp { code := 500, message := e }, store')
  | (isDuplicate, none, store') =>
      ({ code := 200,
         body := RespBody.json (Json.obj [("allowed", Json.bool (!isDuplicate))]) },
       store')

/-- C1: throttle deduplication per bucket.  For any ids and a valid bucket
whose label is fixed (same `now`), a first call on a store with no record at
the derived dedup key returns 200 `allowed:true` and writes the dedup record;
an identical second call against the resulting store returns 200
`allowed:false`; and in general the handler's `allowed` flag is the negation
of the `exists` flag returned by `CheckThrottlingStore` whenever the check
reports no error. -/
theorem throttle_first_seen_dedup (md5hex : String → String) (store : DedupStore)
    (r : ThrottleFunctionRequest) (now : UTCTime) (label : String)
    (hvalid : r.timeBucket = "forever" ∨ r.timeBucket = "5 minutes"
      ∨ r.timeBucket = "30 minutes")
    (hlabel : calculateTimeBucket r.timeBucket now = Except.ok label)
    (hmiss : store.lookup (md5hex (String.intercalate ":"
      [r.internalEntityID, r.dedupObjType, r.dedupObjID, label])) = none) :
    HandleThrottle md5hex store r now =
      ({ code := 200, body := RespBody.json (Json.obj [("allowed", Json.bool true)]) },
       (md5hex (String.intercalate ":"
          [r.internalEntityID, r.dedupObjType, r.dedupObjID, label]),
        DedupBody.record r.timeBucket) :: store)
  ∧ (HandleThrottle md5hex (HandleThrottle md5hex store r now).2 r now).1 =
      { code := 200, body := RespBody.json (Json.obj [("allowed", Json.bool false)]) }
  ∧ (∀ store₁ (r₁ : ThrottleFunctionRequest) now₁ ex store₂,
        CheckThrottlingStore md5hex store₁ r₁.internalEntityID r₁.dedupObjType
          r₁.dedupObjID r₁.timeBucket now₁ = (ex, none, store₂) →
        HandleThrottle md5hex store₁ r₁ now₁ =
          ({ code := 200,
             body := RespBody.json (Json.obj [("allowed", Json.bool (!ex))]) },
           store₂)) := by
  have hcond : ¬(r.timeBucket ≠ TimeBucketForever ∧ r.timeBucket ≠ TimeBucketFiveMin
      ∧ r.timeBucket ≠ TimeBucketThirtyMin) := by
    simp only [TimeBucketForever, TimeBucketFiveMin, TimeBucketThirtyMin]
    rcases hvalid with h | h | h <;> simp [h]
  have hgen : ∀ store₁ (r₁ : ThrottleFunctionRequest) now₁ ex store₂,
      CheckThrottlingStore md5hex store₁ r₁.internalEntityID r₁.dedupObjType
        r₁.dedupObjID r₁.timeBucket now₁ = (ex, none, store₂) →
      HandleThrottle md5hex store₁ r₁ now₁ =
        ({ code := 200,
           body := RespBody.json (Json.obj [("allowed", Json.bool (!ex))]) },
         store₂) := by
    intro store₁ r₁ now₁ ex store₂ hcheck
    simp only [HandleThrottle, hcheck]
  have hfirst : CheckThrottlingStore md5hex store r.internalEntityID r.dedupObjType
      r.dedupObjID r.timeBucket now =
      (false, none,
       (md5hex (String.intercalate ":"
          [r.internalEntityID, r.dedupObjType, r.dedupObjID, label]),
        DedupBody.record r.timeBucket) :: store) := by
    simp only [CheckThrottlingStore, if_neg hcond, hlabel, hmiss]
  have h1 := hgen store r now false _ hfirst
  have hsecond : CheckThrottlingStore md5hex
      ((md5hex (String.intercalate ":"
          [r.internalEntityID, r.dedupObjType, r.dedupObjID, label]),
        DedupBody.record r.timeBucket) :: store)
      r.internalEntityID r.dedupObjType r.dedupObjID r.timeBucket now =
      (true, none,
       (md5hex (String.intercalate ":"
          [r.internalEntityID, r.dedupObjType, r.dedupObjID, label]),
        DedupBody.record r.timeBucket) :: store) := by
    simp only [CheckThrottlingStore, if_neg hcond, hlabel]
    simp [List.lookup, decodeDedupBody]
  have h2 := hgen _ r now true _ hsecond
  refine ⟨h1, ?_, hgen⟩
  rw [h1, h2]
  rfl

theorem throttle_first_seen_dedup_witness :
    HandleThrottle (fun s => s) [] ⟨"e", "alert", "a1", "forever"⟩
      ⟨2023, 5, 15, 10, 0, 0, 0⟩ =
      ({ code := 200, body := RespBody.json (Json.obj [("allowed", Json.bool true)]) },
       [("e:alert:a1:forever_bucket", DedupBody.record "forever")])
  ∧ (HandleThrottle (fun s => s)
       (HandleThrottle (fun s => s) [] ⟨"e", "alert", "a1", "forever"⟩
         ⟨2023, 5, 15, 10, 0, 0, 0⟩).2
       ⟨"e", "alert", "a1", "forever"⟩ ⟨2023, 5, 15, 10, 0, 0, 0⟩).1 =
      { code := 200, body := RespBody.json (Json.obj [("allowed", Json.bool false)]) } := by
  have h := throttle_first_seen_dedup (fun s => s) [] ⟨"e", "alert", "a1", "forever"⟩
    ⟨2023, 5, 15, 10, 0, 0, 0⟩ "forever_bucket" (Or.inl rfl) rfl rfl
  exact ⟨h.1, h.2.1⟩

/-- The first-present choice between two optional values; used to state what
a Go map holds after a merge. -/
def optionOr {β : Type} (a b : Option β) : Option β :=
  match a with
  | some x => some x
  | none => b

/-- Assignment `m[k] = v` on a Go map modelled as an association list: the
new binding shadows (and erases) any previous binding of `k`. -/
def mapInsert (k : String) (v : Json) (m : List (String × Json)) :
    List (String × Json) :=
  (k, v) :: m.filter (fun p => p.1 != k)

theorem lookup_mapInsert_self (k : String) (v : Json) (m : List (String × Json)) :
    (mapInsert k v m).lookup k = some v := by
  simp [mapInsert, List.lookup]

theorem lookup_filter_ne (m : List (String × Json)) (k k' : String) (h : k' ≠ k) :
    (m.filter (fun p => p.1 != k)).lookup k' = m.lookup k' := by
  induction m with
  | nil => rfl
  | cons p rest ih =>
    by_cases hp : p.1 = k
    · have hfilter : (p.1 != k) = false := by simp [hp]
      have hk' : (k' == p.1) = false := by simp [hp, h]
      simp [List.filter_cons, hfilter, List.lookup, hk', ih]
    · have hfilter : (p.1 != k) = true := by simp [hp]
      by_cases hk' : k' = p.1
      · simp [List.filter_cons, hfilter, List.lookup, hk']
      · have hbeq : (k' == p.1) = false := by simp [hk']
        simp [List.filter_cons, hfilter, List.lookup, hbeq, ih]

theorem lookup_mapInsert_other (k : String) (v : Json) (m : List (String × Json))
    (k' : String) (h : k' ≠ k) :
    (mapInsert k v m).lookup k' = m.lookup k' := by
  have hbeq : (k' == k) = false := by simp [h]
  simp [mapInsert, List.lookup, hbeq, lookup_filter_ne m k k' h]

theorem lookup_eq_none_of_not_mem_keys {β : Type} (m : List (String × β)) (k : String)
    (h : k ∉ m.map Prod.fst) : m.lookup k = none := by
  induction m with
  | nil => rfl
  | cons p rest ih =>
    simp only [List.map_cons, List.mem_cons] at h
    push_neg at h
    have hbeq : (k == p.1) = false := by simp [h.1]
    simp [List.lookup, hbeq, ih h.2]

theorem lookup_foldl_mapInsert (kvs : List (String × Json)) (base : List (String × Json))
    (k : String) (hnodup : (kvs.map Prod.fst).Nodup) :
    (kvs.foldl (fun acc kv => mapInsert kv.1 kv.2 acc) base).lookup k
      = optionOr (kvs.lookup k) (base.lookup k) := by
  induction kvs generalizing base with
  | nil => rfl
  | cons kv rest ih =>
    obtain ⟨k0, v0⟩ := kv
    simp only [List.map_cons, List.nodup_cons] at hnodup
    obtain ⟨hk, hrest⟩ := hnodup
    simp only [List.foldl_cons]
    rw [ih _ hrest]
    by_cases hkk : k = k0
    · subst hkk
      rw [lookup_eq_none_of_not_mem_keys rest k hk, lookup_mapInsert_self]
      simp [optionOr, List.lookup]
    · have hbeq : (k == k0) = false := by simp [hkk]
      rw [lookup_mapInsert_other _ _ _ _ hkk]
      simp [List.lookup, hbeq]

theorem lookup_isSome_mapInsert (k : String) (v : Json) (m : List (String × Json))
    (k' : String) (h : (m.lookup k').isSome = true) :
    ((mapInsert k v m).lookup k').isSome = true := by
  by_cases hkk : k' = k
  · subst hkk
    rw [lookup_mapInsert_self]
    rfl
  · rw [lookup_mapInsert_other _ _ _ _ hkk]
    exact h

theorem lookup_isSome_foldl_mapInsert (kvs : List (String × Json))
    (base : List (String × Json)) (k : String) (h : (base.lookup k).isSome = true) :
    ((kvs.foldl (fun acc kv => mapInsert kv.1 kv.2 acc) base).lookup k).isSome = true := by
  induction kvs generalizing base with
  | nil => exact h
  | cons kv rest ih =>
    simp only [List.foldl_cons]
    exact ih _ (lookup_isSome_mapInsert _ _ _ _ h)

/-- `handler.CreateIncidentRequest` (handlers.go). -/
structure CreateIncidentRequest where
  configID : String
  entityID : String
  assignmentGroup : String
  category : String
  description : String
  impact : String
  severity : String
  shortDescription : String
  state : String
  urgency : String
  workNotes : String
  customFields : String
deriving DecidableEq, Repr

/-- One conditional step of `handler.buildRequestPayload`: add the field to
the payload map iff the request value is non-empty. -/
def addField (p : List (String × Json)) (name value : String) :
    List (String × Json) :=
  if value ≠ "" then (name, Json.str value) :: p else p

/-- The eight optional fields of the create-incident request, in the order
`buildRequestPayload` tests them. -/
def optionalFields (body : CreateIncidentRequest) : List (String × String) :=
  [("assignment_group", body.assignmentGroup),
   ("category", body.category),
   ("description", body.description),
   ("impact", body.impact),
   ("severity", body.severity),
   ("state", body.state),
   ("urgency", body.urgency),
   ("work_notes", body.workNotes)]

/-- The payload of `handler.buildRequestPayload` before the custom-fields
merge: `short_description` unconditionally, then each optional field added
iff non-empty, in source order. -/
def optionalFieldsPayload (body : CreateIncidentRequest) : List (String × Json) :=
  (optionalFields body).foldl (fun p nv => addField p nv.1 nv.2)
    [("short_description", Json.str body.shortDescription)]

/-- `handler.buildRequestPayload` (handlers.go).  `decoder` stands for the
standard-library `json.Unmarshal` into `map[string]interface{}` applied to
the `custom_fields` string; on decode failure the custom fields are silently
ignored. -/
def buildRequestPayload (decoder : String → Option (List (String × Json)))
    (body : CreateIncidentRequest) : List (String × Json) :=
  let requestPayload := optionalFieldsPayload body
  if body.customFields ≠ "" then
    match decoder body.customFields with
    | some customFields =>
        customFields.foldl (fun acc kv => mapInsert kv.1 kv.2 acc) requestPayload
    | none => requestPayload
  else requestPayload

theorem lookup_addField_self (p : List (String × Json)) (name value : String)
    (h : p.lookup name = none) :
    (addField p name value).lookup name =
      if value ≠ "" then some (Json.str value) else none := by
  unfold addField
  by_cases hv : value ≠ ""
  · simp [hv, List.lookup]
  · simp [hv, h]

theorem lookup_addField_other (p : List (String × Json)) (name value k : String)
    (h : (k == name) = false) :
    (addField p name value).lookup k = p.lookup k := by
  unfold addField
  by_cases hv : value ≠ ""
  · simp [hv, List.lookup, h]
  · simp [hv]

theorem lookup_foldl_addField_not_mem (nvs : List (String × String))
    (base : List (String × Json)) (k : String)
    (h : nvs.all (fun nv => k != nv.1) = true) :
    (nvs.foldl (fun p nv => addField p nv.1 nv.2) base).lookup k = base.lookup k := by
  induction nvs generalizing base with
  | nil => rfl
  | cons nv rest ih =>
    simp only [List.all_cons, Bool.and_eq_true] at h
    have hne : (k == nv.1) = false := by simpa [bne] using h.1
    simp only [List.foldl_cons]
    rw [ih _ h.2, lookup_addField_other _ _ _ _ hne]

theorem lookup_addField_chain (l1 : List (String × String)) :
    ∀ (l2 : List (String × String)) (k v : String) (base : List (String × Json)),
      l1.all (fun nv => k != nv.1) = true → l2.all (fun nv => k != nv.1) = true →
      base.lookup k = none →
      ((l1 ++ (k, v) :: l2).foldl (fun p nv => addField p nv.1 nv.2) base).lookup k
        = if v ≠ "" then some (Json.str v) else none := by
  induction l1 with
  | nil =>
    intro l2 k v base h1 h2 hbase
    simp only [List.nil_append, List.foldl_cons]
    rw [lookup_foldl_addField_not_mem l2 _ k h2]
    exact lookup_addField_self base k v hbase
  | cons nv rest ih =>
    intro l2 k v base h1 h2 hbase
    simp only [List.all_cons, Bool.and_eq_true] at h1
    have hne : (k == nv.1) = false := by simpa [bne] using h1.1
    simp only [List.cons_append, List.foldl_cons]
    refine ih l2 k v (addField base nv.1 nv.2) h1.2 h2 ?_
    rw [lookup_addField_other _ _ _ _ hne]
    exact hbase

/-- C8: payload building.  Before the custom-fields merge the payload binds
each of the eight optional fields iff the request value is non-empty (with
that value); when `custom_fields` is non-empty and decodes as a JSON object
with distinct keys, every key of the final payload resolves to the custom
value when one exists and to the base payload's value otherwise (custom
overwrites collisions); when `custom_fields` is non-empty but fails to
decode, or is empty, the payload is exactly the base payload. -/
theorem build_request_payload_spec (decoder : String → Option (List (String × Json)))
    (body : CreateIncidentRequest) :
    ((optionalFieldsPayload body).lookup "assignment_group" =
        if body.assignmentGroup ≠ "" then some (Json.str body.assignmentGroup) else none)
  ∧ ((optionalFieldsPayload body).lookup "category" =
        if body.category ≠ "" then some (Json.str body.category) else none)
  ∧ ((optionalFieldsPayload body).lookup "description" =
        if body.description ≠ "" then some (Json.str body.description) else none)
  ∧ ((optionalFieldsPayload body).lookup "impact" =
        if body.impact ≠ "" then some (Json.str body.impact) else none)
  ∧ ((optionalFieldsPayload body).lookup "severity" =
        if body.severity ≠ "" then some (Json.str body.severity) else none)
  ∧ ((optionalFieldsPayload body).lookup "state" =
        if body.state ≠ "" then some (Json.str body.state) else none)
  ∧ ((optionalFieldsPayload body).lookup "urgency" =
        if body.urgency ≠ "" then some (Json.str body.urgency) else none)
  ∧ ((optionalFieldsPayload body).lookup "work_notes" =
        if body.workNotes ≠ "" then some (Json.str body.workNotes) else none)
  ∧ (∀ kvs, body.customFields ≠ "" → decoder body.customFields = some kvs →
        (kvs.map Prod.fst).Nodup →
        ∀ k, (buildRequestPayload decoder body).lookup k =
          optionOr (kvs.lookup k) ((optionalFieldsPayload body).lookup k))
  ∧ (body.customFields ≠ "" → decoder body.customFields = none →
        buildRequestPayload decoder body = optionalFieldsPayload body)
  ∧ (body.customFields = "" →
        buildRequestPayload decoder body = optionalFieldsPayload body) := by
  refine ⟨?_, ?_, ?_, ?_, ?_, ?_, ?_, ?_, ?_, ?_, ?_⟩
  · unfold optionalFieldsPayload optionalFields
    exact lookup_addField_chain []
      [("category", body.category), ("description", body.description),
       ("impact", body.impact), ("severity", body.severity), ("state", body.state),
       ("urgency", body.urgency), ("work_notes", body.workNotes)]
      "assignment_group" body.assignmentGroup
      [("short_description", Json.str body.shortDescription)] rfl rfl rfl
  · unfold optionalFieldsPayload optionalFields
    exact lookup_addField_chain [("assignment_group", body.assignmentGroup)]
      [("description", body.description), ("impact", body.impact),
       ("severity", body.severity), ("state", body.state),
       ("urgency", body.urgency), ("work_notes", body.workNotes)]
      "category" body.category
      [("short_description", Json.str body.shortDescription)] rfl rfl rfl
  · unfold optionalFieldsPayload optionalFields
    exact lookup_addField_chain
      [("assignment_group", body.assignmentGroup), ("category", body.category)]
      [("impact", body.impact), ("severity", body.severity), ("state", body.state),
       ("urgency", body.urgency), ("work_notes", body.workNotes)]
      "description" body.description
      [("short_description", Json.str body.shortDescription)] rfl rfl rfl
  · unfold optionalFieldsPayload optionalFields
    exact lookup_addField_chain
      [("assignment_group", body.assignmentGroup), ("category", body.category),
       ("description", body.description)]
      [("severity", body.severity), ("state", body.state),
       ("urgency", body.urgency), ("work_notes", body.workNotes)]
      "impact" body.impact
      [("short_description", Json.str body.shortDescription)] rfl rfl rfl
  · unfold optionalFieldsPayload optionalFields
    exact lookup_addField_chain
      [("assignment_group", body.assignmentGroup), ("category", body.category),
       ("description", body.description), ("impact", body.impact)]
      [("state", body.state), ("urgency", body.urgency), ("work_notes", body.workNotes)]
      "severity" body.severity
      [("short_description", Json.str body.shortDescription)] rfl rfl rfl
  · unfold optionalFieldsPayload optionalFields
    exact lookup_addField_chain
      [("assignment_group", body.assignmentGroup), ("category", body.category),
       ("description", body.description), ("impact", body.impact),
       ("severity", body.severity)]
      [("urgency", body.urgency), ("work_notes", body.workNotes)]
      "state" body.state
      [("short_description", Json.str body.shortDescription)] rfl rfl rfl
  · unfold optionalFieldsPayload optionalFields
    exact lookup_addField_chain
      [("assignment_group", body.assignmentGroup), ("category", body.category),
       ("description", body.description), ("impact", body.impact),
       ("severity", body.severity), ("state", body.state)]
      [("work_notes", body.workNotes)]
      "urgency" body.urgency
      [("short_description", Json.str body.shortDescription)] rfl rfl rfl
  · unfold optionalFieldsPayload optionalFields
    exact lookup_addField_chain
      [("assignment_group", body.assignmentGroup), ("category", body.category),
       ("description", body.description), ("impact", body.impact),
       ("severity", body.severity), ("state", body.state), ("urgency", body.urgency)]
      []
      "work_notes" body.workNotes
      [("short_description", Json.str body.shortDescription)] rfl rfl rfl
  · intro kvs hcf hdec hnodup k
    simp only [buildRequestPayload]
    rw [if_pos hcf, hdec]
    exact lookup_foldl_mapInsert kvs _ k hnodup
  · intro hcf hdec
    simp only [buildRequestPayload]
    rw [if_pos hcf, hdec]
  · intro hcf
    simp [buildRequestPayload, hcf]

theorem build_request_payload_spec_witness :
    (buildRequestPayload
        (fun s => if s = "cf" then some [("u_a", Json.str "1"), ("u_b", Json.num 42)] else none)
        ⟨"cfg", "entity123", "", "", "", "", "", "s", "", "", "", "cf"⟩).lookup "u_a"
      = some (Json.str "1")
  ∧ (buildRequestPayload
        (fun s => if s = "cf" then some [("u_a", Json.str "1"), ("u_b", Json.num 42)] else none)
        ⟨"cfg", "entity123", "", "", "", "", "", "s", "", "", "", "cf"⟩).lookup "u_b"
      = some (Json.num 42)
  ∧ (buildRequestPayload
        (fun s => if s = "cf" then some [("u_a", Json.str "1"), ("u_b", Json.num 42)] else none)
        ⟨"cfg", "entity123", "", "", "", "", "", "s", "", "", "", "cf"⟩).lookup "short_description"
      = some (Json.str "s")
  ∧ buildRequestPayload
        (fun s => if s = "cf" then some [("u_a", Json.str "1"), ("u_b", Json.num 42)] else none)
        ⟨"cfg", "entity123", "", "", "", "", "", "s", "", "", "", "\x7bnot json"⟩
      = [("short_description", Json.str "s")] := by
  have hm := (build_request_payload_spec
      (fun s => if s = "cf" then some [("u_a", Json.str "1"), ("u_b", Json.num 42)] else none)
      ⟨"cfg", "entity123", "", "", "", "", "", "s", "", "", "", "cf"⟩).2.2.2.2.2.2.2.2.1
    [("u_a", Json.str "1"), ("u_b", Json.num 42)] (by decide) rfl (by decide)
  have hfail := (build_request_payload_spec
      (fun s => if s = "cf" then some [("u_a", Json.str "1"), ("u_b", Json.num 42)] else none)
      ⟨"cfg", "entity123", "", "", "", "", "", "s", "", "", "", "\x7bnot json"⟩).2.2.2.2.2.2.2.2.2.1
    (by decide) rfl
  exact ⟨(hm "u_a").trans rfl, (hm "u_b").trans rfl,
    (hm "short_description").trans rfl, hfail.trans rfl⟩

/-- C10 (implicit): the payload binds `short_description` unconditionally —
also when the request's `short_description` is the empty string — and its
value is the request value whenever `custom_fields` is empty or fails to
decode (only a custom-fields collision can replace it). -/
theorem short_description_unconditional (decoder : String → Option (List (String × Json)))
    (body : CreateIncidentRequest) :
    ((buildRequestPayload decoder body).lookup "short_description").isSome = true
  ∧ (optionalFieldsPayload body).lookup "short_description"
      = some (Json.str body.shortDescription)
  ∧ (body.customFields = "" →
      (buildRequestPayload decoder body).lookup "short_description"
        = some (Json.str body.shortDescription))
  ∧ (decoder body.customFields = none →
      (buildRequestPayload decoder body).lookup "short_description"
        = some (Json.str body.shortDescription)) := by
  have hbase : (optionalFieldsPayload body).lookup "short_description"
      = some (Json.str body.shortDescription) := by
    unfold optionalFieldsPayload optionalFields
    rw [lookup_foldl_addField_not_mem
      [("assignment_group", body.assignmentGroup), ("category", body.category),
       ("description", body.description), ("impact", body.impact),
       ("severity", body.severity), ("state", body.state), ("urgency", body.urgency),
       ("work_notes", body.workNotes)]
      [("short_description", Json.str body.shortDescription)] "short_description" rfl]
    rfl
  refine ⟨?_, hbase, ?_, ?_⟩
  · simp only [buildRequestPayload]
    by_cases hcf : body.customFields ≠ ""
    · rw [if_pos hcf]
      cases hdec : decoder body.customFields with
      | none => simp [hbase]
      | some kvs =>
        exact lookup_isSome_foldl_mapInsert kvs _ _ (by rw [hbase]; rfl)
    · rw [if_neg hcf]
      simp [hbase]
  · intro hcf
    have hne : ¬(body.customFields ≠ "") := by simp [hcf]
    simp only [buildRequestPayload]
    rw [if_neg hne]
    exact hbase
  · intro hdec
    simp only [buildRequestPayload]
    by_cases hcf : body.customFields ≠ ""
    · rw [if_pos hcf, hdec]
      exact hbase
    · rw [if_neg hcf]
      exact hbase

theorem short_description_unconditional_witness :
    (buildRequestPayload (fun _ => none)
        ⟨"cfg", "entity123", "", "", "", "", "", "", "", "", "", ""⟩).lookup "short_description"
      = some (Json.str "") :=
  (short_description_unconditional (fun _ => none)
    ⟨"cfg", "entity123", "", "", "", "", "", "", "", "", "", ""⟩).2.2.1 rfl

/-- The outcome of the `APIIntegrations.ExecuteCommand` RPC as observed by
`createIncident`: a transport error, a nil response, a response with a nil
payload, or a payload whose resources carry the listed response bodies (the
empty list being the "empty resources" case). -/
inductive RpcOutcome where
  | transportError (msg : String)
  | nilResponse
  | nilPayload
  | resources (rs : List Json)

/-- The 500 response produced by the panic-recovery wrapper
(`service.WithPanicRecoveryWorkflow`) when the handler body hits a runtime
fault; `createIncident` reaches it only on a Go nil dereference or a failed
type assertion, which the model makes explicit. -/
def panicResponse : Response :=
  ErrResp { code := 500, message := "Internal fn error: runtime panic" }

/-- The error-field conversion inside `createIncident`: a string value is
used verbatim; any other value is JSON-encoded (`json.Marshal` cannot fail
on a value that was itself decoded from JSON, so Go's fallback branch for a
failed marshal is dead). -/
def goErrorText : Json → String
  | Json.str s => s
  | e => encodeJson e

/-- `Handler.createIncident` (handlers.go), from the point where the Falcon
client has been built: mapping lookup with early exit, payload build, RPC
dispatch, response-shape checks, result extraction, application-error
precedence, and the conditional mapping write.  `rpc` is the dispatcher,
closed over the integration name, operation id and config id, mapping the
outbound JSON payload to the observed outcome; the returned Bool records
whether the RPC was invoked. -/
def createIncident (decoder : String → Option (List (String × Json)))
    (store : TrackedStore) (body : CreateIncidentRequest)
    (ticketType externalSystemID : String)
    (rpc : List (String × Json) → RpcOutcome) :
    Response × TrackedStore × Bool :=
  match CheckExternalEntityExists store body.entityID externalSystemID with
  | (_, _, some e) =>
      (ErrResp { code := 500, message := "failed to check if ticket exists: " ++ e },
       store, false)
  | (true, some extRecord, none) =>
      ({ code := 200,
         body := RespBody.json (Json.obj
           [("exists", Json.bool true),
            ("ticket_id", Json.str extRecord.externalEntityID),
            ("ticket_type", Json.str ticketType)]) },
       store, false)
  | (true, none, none) => (panicResponse, store, false)
  | (false, _, none) =>
    let requestPayload := buildRequestPayload decoder body
    match rpc requestPayload with
    | RpcOutcome.transportError m =>
        (ErrResp { code := 500, message := "failed to execute command: " ++ m },
         store, true)
    | RpcOutcome.nilResponse =>
        (ErrResp { code := 500, message := "failed to execute command - nil response" },
         store, true)
    | RpcOutcome.nilPayload =>
        (ErrResp { code := 500, message := "failed to execute command - empty response" },
         store, true)
    | RpcOutcome.resources [] =>
        (ErrResp
           { code := 500,
             message := "failed to execute command - empty resources in response payload" },
         store, true)
    | RpcOutcome.resources (resourceRespBody :: _) =>
      match resourceRespBody with
      | Json.obj respFields =>
        let resultPair :=
          match respFields.lookup "result" with
          | some (Json.obj resultMap) =>
              ((match resultMap.lookup "sys_class_name" with
                | some (Json.str s) => s
                | _ => ""),
               (match resultMap.lookup "sys_id" with
                | some (Json.str s) => s
                | _ => ""))
          | _ => ("", "")
        let snowSysClassName := resultPair.1
        let snowSysID := resultPair.2
        match respFields.lookup "error" with
        | some errorField =>
            (ErrResp
               { code := 500,
                 message := "failed to execute command: ServiceNow Error: "
                   ++ goErrorText errorField },
             store, true)
        | none =>
          if snowSysID ≠ "" then
            match CreateOrUpdateExternalEntityMapping store
                { internalEntityID := body.entityID, externalEntityID := snowSysID,
                  externalSystemID := externalSystemID } with
            | Except.error e => (ErrResp { code := 500, message := e }, store, true)
            | Except.ok store' =>
                ({ code := 201,
                   body := RespBody.json (Json.obj
                     [("exists", Json.bool false), ("ticket_id", Json.str snowSysID),
                      ("ticket_type", Json.str snowSysClassName)]) },
                 store', true)
          else
            ({ code := 201,
               body := RespBody.json (Json.obj
                 [("exists", Json.bool false), ("ticket_id", Json.str snowSysID),
                  ("ticket_type", Json.str snowSysClassName)]) },
             store, true)
      | _ => (panicResponse, store, true)

/-- C7: create-incident warm path.  When a mapping for the request's entity
exists under the handler's bound external system id, the handler returns
HTTP 200 with `exists:true`, the stored ticket id and the bound ticket type,
the store is unchanged (no mapping write) and the ITSM RPC is not invoked. -/
theorem create_incident_warm_path (decoder : String → Option (List (String × Json)))
    (store : TrackedStore) (body : CreateIncidentRequest)
    (ticketType externalSystemID : String)
    (rpc : List (String × Json) → RpcOutcome) (r : ExternalEntityRecord)
    (hfound : CheckExternalEntityExists store body.entityID externalSystemID =
      (true, some r, none)) :
    createIncident decoder store body ticketType externalSystemID rpc =
      ({ code := 200,
         body := RespBody.json (Json.obj
           [("exists", Json.bool true), ("ticket_id", Json.str r.externalEntityID),
            ("ticket_type", Json.str ticketType)]) },
       store, false) := by
  simp only [createIncident, hfound]

theorem create_incident_warm_path_witness :
    createIncident (fun _ => none)
      [("servicenow_incident.entity123",
        TrackedBody.record ⟨"entity123", "ticket123", "servicenow_incident"⟩)]
      ⟨"cfg", "entity123", "", "", "", "", "", "s", "", "", "", ""⟩
      "incident" "servicenow_incident"
      (fun _ => RpcOutcome.nilResponse) =
      ({ code := 200,
         body := RespBody.json (Json.obj
           [("exists", Json.bool true), ("ticket_id", Json.str "ticket123"),
            ("ticket_type", Json.str "incident")]) },
       [("servicenow_incident.entity123",
         TrackedBody.record ⟨"entity123", "ticket123", "servicenow_incident"⟩)],
       false) :=
  create_incident_warm_path _ _ _ _ _ _
    ⟨"entity123", "ticket123", "servicenow_incident"⟩ rfl

/-- C6: ITSM application-error precedence and atomicity.  On the cold path,
whenever the RPC response body contains an `error` field the handler fails
with HTTP 500 and the message `failed to execute command: ServiceNow Error:`
followed by the error value (verbatim when a string, its JSON encoding
otherwise), the store is unchanged (no mapping write) — even when the same
body also carries a `result` with a non-empty `sys_id`. -/
theorem itsm_error_precedence (decoder : String → Option (List (String × Json)))
    (store : TrackedStore) (body : CreateIncidentRequest)
    (ticketType externalSystemID : String)
    (rpc : List (String × Json) → RpcOutcome)
    (respFields : List (String × Json)) (e : Json) (rest : List Json)
    (hcold : CheckExternalEntityExists store body.entityID externalSystemID =
      (false, none, none))
    (hrpc : rpc (buildRequestPayload decoder body) =
      RpcOutcome.resources (Json.obj respFields :: rest))
    (herr : respFields.lookup "error" = some e) :
    createIncident decoder store body ticketType externalSystemID rpc =
      (ErrResp
         { code := 500,
           message := "failed to execute command: ServiceNow Error: " ++ goErrorText e },
       store, true)
  ∧ (∀ s, e = Json.str s → goErrorText e = s)
  ∧ ((∀ s, e ≠ Json.str s) → goErrorText e = encodeJson e) := by
  refine ⟨by simp only [createIncident, hcold, hrpc, herr], ?_, ?_⟩
  · intro s hs
    subst hs
    rfl
  · intro hnot
    cases e with
    | str s => exact absurd rfl (hnot s)
    | null => rfl
    | bool b => rfl
    | num n => rfl
    | arr xs => rfl
    | obj fs => rfl

theorem itsm_error_precedence_witness :
    createIncident (fun _ => none) []
      ⟨"cfg", "entity123", "", "", "", "", "", "s", "", "", "", ""⟩
      "incident" "servicenow_incident"
      (fun _ => RpcOutcome.resources [Json.obj
        [("result", Json.obj [("sys_id", Json.str "x")]),
         ("error", Json.obj [("message", Json.str "Validation Error"),
                             ("code", Json.str "VAL1001")])]]) =
      (ErrResp
         { code := 500,
           message := "failed to execute command: ServiceNow Error: "
             ++ goErrorText (Json.obj [("message", Json.str "Validation Error"),
                                       ("code", Json.str "VAL1001")]) },
       [], true)
  ∧ goErrorText (Json.obj [("message", Json.str "Validation Error"),
                           ("code", Json.str "VAL1001")])
      = "\x7b\"code\":\"VAL1001\",\"message\":\"Validation Error\"\x7d" := by
  have h := itsm_error_precedence (fun _ => none) []
    ⟨"cfg", "entity123", "", "", "", "", "", "s", "", "", "", ""⟩
    "incident" "servicenow_incident"
    (fun _ => RpcOutcome.resources [Json.obj
      [("result", Json.obj [("sys_id", Json.str "x")]),
       ("error", Json.obj [("message", Json.str "Validation Error"),
                           ("code", Json.str "VAL1001")])]])
    [("result", Json.obj [("sys_id", Json.str "x")]),
     ("error", Json.obj [("message", Json.str "Validation Error"),
                         ("code", Json.str "VAL1001")])]
    (Json.obj [("message", Json.str "Validation Error"), ("code", Json.str "VAL1001")])
    [] rfl rfl rfl
  exact ⟨h.1, by decide⟩
